import Mathlib

/-
Shallow embedding of the Task Management API core:
  app/schemas.py   (pydantic payload models and field validators)
  app/routers/tasks.py (request handlers / repository operations)
Python strings are Lean Strings; Python datetimes are wall-clock integers
with an optional UTC offset; the relational store is a list of committed
rows plus an auto-increment counter.
-/

namespace TaskApi

/-- Modelled from the spec: app/models.py is not in src/.  Spec section 3:
status is the closed enumeration pending, in_progress, completed, cancelled. -/
inductive TaskStatus where
  | pending
  | in_progress
  | completed
  | cancelled
deriving DecidableEq, Repr

/-- Modelled from the spec: app/models.py is not in src/.  Spec section 3:
priority is the closed enumeration low, medium, high, urgent. -/
inductive TaskPriority where
  | low
  | medium
  | high
  | urgent
deriving DecidableEq, Repr

/-- A Python datetime: a wall-clock reading plus an optional UTC offset
(`tzinfo`); `tz = none` models a naive datetime (no usable tzinfo). -/
structure DateTime where
  wall : Int
  tz : Option Int
deriving DecidableEq, Repr

/-- The instant an aware datetime denotes (wall-clock minus offset);
Python compares aware datetimes by instant. -/
def DateTime.instant (d : DateTime) : Int := d.wall - d.tz.getD 0

/-- Python datetime.now(timezone.utc): an aware datetime at offset 0. -/
def utcNow (now : Int) : DateTime := { wall := now, tz := some 0 }

/-- Python datetime.utcnow(): a naive datetime reading the UTC wall clock. -/
def naiveUtcNow (now : Int) : DateTime := { wall := now, tz := none }

/-- Python str.strip() on the character list: drop whitespace from the
left, then from the right (Python strips Unicode whitespace; the claims
involve only ordinary whitespace characters, covered by Char.isWhitespace). -/
def stripChars (l : List Char) : List Char :=
  (l.dropWhile Char.isWhitespace).rdropWhile Char.isWhitespace

/-- Python str.strip() on Strings. -/
def pyStrip (s : String) : String := String.mk (stripChars s.toList)

/-- schemas.py TaskBase.validate_title: if the value is not None, strip it
and reject when the result is empty; otherwise pass the value through. -/
def validate_title : Option String → Except String (Option String)
  | none => .ok none
  | some v =>
    let v := pyStrip v
    if v = "" then .error "Title cannot be empty or whitespace only."
    else .ok (some v)

/-- schemas.py TaskBase.validate_title applied at TaskCreate's required
title field, where pydantic hands the validator the (non-None) string. -/
def validate_title_required (v : String) : Except String String :=
  let v := pyStrip v
  if v = "" then .error "Title cannot be empty or whitespace only."
  else .ok v

/-- schemas.py validate_due_date lines 53-54: a naive datetime
(`tzinfo is None or utcoffset is None`) gets `replace(tzinfo=timezone.utc)`,
which keeps the wall clock and attaches offset 0. -/
def normalizeUtc (d : DateTime) : DateTime :=
  if d.tz.isNone then { d with tz := some 0 } else d

/-- schemas.py TaskBase.validate_due_date: skip None, normalize a naive
value to UTC, reject unless strictly after datetime.now(timezone.utc). -/
def validate_due_date (v : Option DateTime) (now : Int) : Except String (Option DateTime) :=
  match v with
  | none => .ok none
  | some d =>
    let d := normalizeUtc d
    if d.instant ≤ (utcNow now).instant then .error "Due date must be in the future."
    else .ok (some d)

/-- schemas.py TaskCreate: title required, the rest optional with default
None; a field explicitly null and an absent field are indistinguishable to
the create handler, which reads attribute values only. -/
structure TaskCreate where
  title : String
  description : Option String := none
  status : Option TaskStatus := none
  priority : Option TaskPriority := none
  due_date : Option DateTime := none
  assigned_to : Option String := none
deriving DecidableEq, Repr

/-- Pydantic field-validation pass for TaskCreate: run the title and
due_date validators and carry their (normalized) outputs. -/
def TaskCreate.validate (p : TaskCreate) (now : Int) : Except String TaskCreate :=
  match validate_title_required p.title with
  | .error e => .error e
  | .ok t =>
    match validate_due_date p.due_date now with
    | .error e => .error e
    | .ok d => .ok { p with title := t, due_date := d }

/-- Pydantic fields-set tracking for an update field: unset (absent from
the payload), or set to a value, possibly explicitly null. -/
inductive Setting (α : Type) where
  | unset
  | set (v : Option α)
deriving DecidableEq, Repr

/-- The value a validator sees for the field (None when unset or null). -/
def Setting.toOption {α : Type} : Setting α → Option α
  | .unset => none
  | .set v => v

/-- Whether the field appears in dict(exclude_unset=True). -/
def Setting.isSet {α : Type} : Setting α → Bool
  | .unset => false
  | .set _ => true

/-- Replace a set field's value with the validator's output; an unset
field stays unset (it never entered the payload). -/
def Setting.revalidate {α : Type} : Setting α → Option α → Setting α
  | .unset, _ => .unset
  | .set _, v => .set v

/-- schemas.py TaskUpdate: every field optional, with pydantic tracking
which fields the payload actually supplied. -/
structure TaskUpdate where
  title : Setting String := .unset
  description : Setting String := .unset
  status : Setting TaskStatus := .unset
  priority : Setting TaskPriority := .unset
  due_date : Setting DateTime := .unset
  assigned_to : Setting String := .unset
deriving DecidableEq, Repr

/-- Pydantic field-validation pass for TaskUpdate: the title and due_date
validators run on the supplied values and their outputs replace them. -/
def TaskUpdate.validate (p : TaskUpdate) (now : Int) : Except String TaskUpdate :=
  match validate_title p.title.toOption with
  | .error e => .error e
  | .ok t =>
    match validate_due_date p.due_date.toOption now with
    | .error e => .error e
    | .ok d => .ok { p with title := p.title.revalidate t, due_date := p.due_date.revalidate d }

/-- Whether dict(exclude_unset=True) is non-empty (tasks.py line 84). -/
def TaskUpdate.hasData (p : TaskUpdate) : Bool :=
  p.title.isSet || p.description.isSet || p.status.isSet || p.priority.isSet ||
    p.due_date.isSet || p.assigned_to.isSet

/-- Modelled from the spec: app/models.py (the Task SQLModel table) is not
in src/.  Spec section 3/6: one relational table whose columns match the
entity fields; id is the store-assigned primary key; title, status and
priority are non-nullable (title required, status and priority always one
of the closed enumerations); description, due_date, assigned_to and
updated_at are nullable. -/
structure Task where
  id : Nat
  title : String
  description : Option String
  status : TaskStatus
  priority : TaskPriority
  due_date : Option DateTime
  assigned_to : Option String
  created_at : DateTime
  updated_at : Option DateTime
deriving DecidableEq, Repr

/-- An in-memory row as Python sees it between setattr and commit: the
non-nullable columns may transiently hold None. -/
structure TaskRecord where
  id : Nat
  title : Option String
  description : Option String
  status : Option TaskStatus
  priority : Option TaskPriority
  due_date : Option DateTime
  assigned_to : Option String
  created_at : DateTime
  updated_at : Option DateTime
deriving DecidableEq, Repr

/-- Modelled from the spec: committing a row enforces the table's NOT NULL
constraints (spec section 4.3/7: a constraint violation is a store-level
failure surfaced as an internal error); a row with a null title, status or
priority does not commit. -/
def TaskRecord.commit (r : TaskRecord) : Option Task :=
  match r.title, r.status, r.priority with
  | some t, some st, some pr =>
    some { id := r.id, title := t, description := r.description, status := st,
           priority := pr, due_date := r.due_date, assigned_to := r.assigned_to,
           created_at := r.created_at, updated_at := r.updated_at }
  | _, _, _ => none

/-- The relational store: committed rows in insertion order plus the
auto-increment counter for the next primary key. -/
structure Store where
  tasks : List Task
  nextId : Nat
deriving DecidableEq, Repr

/-- The store right after startup (no rows, ids start at 1). -/
def emptyStore : Store := { tasks := [], nextId := 1 }

/-- session.get(Task, task_id): primary-key lookup. -/
def findTask (s : Store) (id : Nat) : Option Task :=
  s.tasks.find? (fun t => t.id == id)

/-- Failure outcomes a handler can produce: validation (HTTP 400/422),
not-found (HTTP 404), internal (HTTP 500). -/
inductive ApiError where
  | validation (msg : String)
  | notFound (msg : String)
  | internal (msg : String)
deriving DecidableEq, Repr

/-- Detail string of the 404 responses in tasks.py. -/
def notFoundMsg (id : Nat) : String :=
  "Task with ID " ++ toString id ++ " not found."

/-- tasks.py create_task, after pydantic validation: build the row with
title.strip(), `status or pending`, `priority or medium` (enum members are
truthy, so `or` is getD), created_at = datetime.utcnow(), and insert it;
the store assigns the id. -/
def create_task (s : Store) (p : TaskCreate) (now : Int) : Store × Except ApiError Task :=
  let t : Task :=
    { id := s.nextId
      title := pyStrip p.title
      description := p.description
      status := p.status.getD .pending
      priority := p.priority.getD .medium
      due_date := p.due_date
      assigned_to := p.assigned_to
      created_at := naiveUtcNow now
      updated_at := none }
  ({ tasks := s.tasks ++ [t], nextId := s.nextId + 1 }, .ok t)

/-- tasks.py get_task: primary-key lookup or 404. -/
def get_task (s : Store) (id : Nat) : Except ApiError Task :=
  match findTask s id with
  | none => .error (.notFound (notFoundMsg id))
  | some t => .ok t

/-- The setattr loop of update_task for one field: the payload's value
when the key is in dict(exclude_unset=True), the old value otherwise. -/
def applySetting {α : Type} : Setting α → Option α → Option α
  | .unset, old => old
  | .set v, _ => v

/-- tasks.py update_task lines 88-92: apply every supplied field to the
loaded row and set updated_at = datetime.utcnow(). -/
def mergeUpdate (t : Task) (p : TaskUpdate) (now : Int) : TaskRecord :=
  { id := t.id
    title := applySetting p.title (some t.title)
    description := applySetting p.description t.description
    status := applySetting p.status (some t.status)
    priority := applySetting p.priority (some t.priority)
    due_date := applySetting p.due_date t.due_date
    assigned_to := applySetting p.assigned_to t.assigned_to
    created_at := t.created_at
    updated_at := some (naiveUtcNow now) }

/-- tasks.py update_task, after pydantic validation: load by id (404 if
missing), reject an empty dict(exclude_unset=True) with 400, merge and
commit (a NOT NULL violation surfaces as a 500 with the store unchanged),
and persist the committed row in place. -/
def update_task (s : Store) (id : Nat) (p : TaskUpdate) (now : Int) :
    Store × Except ApiError Task :=
  match findTask s id with
  | none => (s, .error (.notFound (notFoundMsg id)))
  | some t =>
    if p.hasData then
      match (mergeUpdate t p now).commit with
      | none => (s, .error (.internal "Failed to update task: NOT NULL constraint failed"))
      | some t2 =>
        ({ s with tasks := s.tasks.map (fun u => if u.id == id then t2 else u) }, .ok t2)
    else (s, .error (.validation "No data provided for update."))

/-- tasks.py delete_task: load by id (404 if missing), then hard-delete
the row with that primary key. -/
def delete_task (s : Store) (id : Nat) : Store × Except ApiError Unit :=
  match findTask s id with
  | none => (s, .error (.notFound (notFoundMsg id)))
  | some _ => ({ s with tasks := s.tasks.filter (fun t => !(t.id == id)) }, .ok ())

/-- The `if status: ... if priority: ...` WHERE clauses of list_tasks. -/
def matchesFilters (st : Option TaskStatus) (pr : Option TaskPriority) (t : Task) : Bool :=
  (match st with | none => true | some v => t.status == v) &&
    (match pr with | none => true | some v => t.priority == v)

/-- tasks.py list_tasks: skip is Query(ge=0) and limit is Query(le=100) —
FastAPI rejects a violation as a bad request before the handler runs; no
lower bound is declared for limit.  In bounds, filter then offset/limit
(a non-positive limit is modelled as returning no rows; no claim depends
on that backend detail). -/
def list_tasks (s : Store) (skip limit : Int) (stF : Option TaskStatus)
    (prF : Option TaskPriority) : Except ApiError (List Task) :=
  if skip < 0 then
    .error (.validation "skip: ensure this value is greater than or equal to 0")
  else if 100 < limit then
    .error (.validation "limit: ensure this value is less than or equal to 100")
  else
    .ok (((s.tasks.filter (matchesFilters stF prF)).drop skip.toNat).take limit.toNat)

/-- The create endpoint as a whole: pydantic validation of the payload
(a failure is a 422 with no store access), then the handler body. -/
def createHandler (s : Store) (p : TaskCreate) (now : Int) : Store × Except ApiError Task :=
  match p.validate now with
  | .error m => (s, .error (.validation m))
  | .ok p2 => create_task s p2 now

/-- The update endpoint as a whole: pydantic validation of the payload
(a failure is a 422 with no store access), then the handler body. -/
def updateHandler (s : Store) (id : Nat) (p : TaskUpdate) (now : Int) :
    Store × Except ApiError Task :=
  match p.validate now with
  | .error m => (s, .error (.validation m))
  | .ok p2 => update_task s id p2 now

/-- A JSON value as it reaches pydantic for one schema field: null, a
string, a (successfully parsed) enum member, or a datetime. -/
inductive RawValue where
  | vNull
  | vStr (s : String)
  | vStatus (st : TaskStatus)
  | vPriority (pr : TaskPriority)
  | vDate (d : DateTime)
deriving DecidableEq, Repr

/-- The field names of TaskBase (schemas.py lines 10-38). -/
def recognizedFields : List String :=
  ["title", "description", "status", "priority", "due_date", "assigned_to"]

/-- Look a field up in the raw JSON object. -/
def lookupRaw (raw : List (String × RawValue)) (name : String) : Option RawValue :=
  (raw.find? (fun f => f.1 == name)).map (fun f => f.2)

/-- Type coercion for an Optional[str] field. -/
def coerceStr : RawValue → Option (Option String)
  | .vNull => some none
  | .vStr s => some (some s)
  | _ => none

/-- Type coercion for an Optional[TaskStatus] field. -/
def coerceStatus : RawValue → Option (Option TaskStatus)
  | .vNull => some none
  | .vStatus st => some (some st)
  | _ => none

/-- Type coercion for an Optional[TaskPriority] field. -/
def coercePriority : RawValue → Option (Option TaskPriority)
  | .vNull => some none
  | .vPriority pr => some (some pr)
  | _ => none

/-- Type coercion for an Optional[datetime] field. -/
def coerceDate : RawValue → Option (Option DateTime)
  | .vNull => some none
  | .vDate d => some (some d)
  | _ => none

/-- Parse one optional field: absent stays unset; present values are
type-coerced, with a coercion failure a validation error. -/
def parseSetting {α : Type} (raw : List (String × RawValue)) (name : String)
    (coe : RawValue → Option (Option α)) : Except ApiError (Setting α) :=
  match lookupRaw raw name with
  | none => .ok .unset
  | some v =>
    match coe v with
    | some o => .ok (.set o)
    | none => .error (.validation (name ++ ": value is not a valid type"))

/-- Pydantic parsing of a TaskUpdate body under Config extra = Extra.forbid
(schemas.py): any unrecognized field name is rejected outright. -/
def parseTaskUpdate (raw : List (String × RawValue)) : Except ApiError TaskUpdate :=
  if raw.any (fun f => !(recognizedFields.contains f.1)) then
    .error (.validation "extra fields not permitted")
  else
    match parseSetting raw "title" coerceStr, parseSetting raw "description" coerceStr,
        parseSetting raw "status" coerceStatus, parseSetting raw "priority" coercePriority,
        parseSetting raw "due_date" coerceDate, parseSetting raw "assigned_to" coerceStr with
    | .ok t, .ok de, .ok st, .ok pr, .ok du, .ok asg =>
      .ok { title := t, description := de, status := st, priority := pr,
            due_date := du, assigned_to := asg }
    | .error e, _, _, _, _, _ => .error e
    | _, .error e, _, _, _, _ => .error e
    | _, _, .error e, _, _, _ => .error e
    | _, _, _, .error e, _, _ => .error e
    | _, _, _, _, .error e, _ => .error e
    | _, _, _, _, _, .error e => .error e

/-- Pydantic parsing of a TaskCreate body under Config extra = Extra.forbid:
unrecognized field names rejected, title required and a string. -/
def parseTaskCreate (raw : List (String × RawValue)) : Except ApiError TaskCreate :=
  if raw.any (fun f => !(recognizedFields.contains f.1)) then
    .error (.validation "extra fields not permitted")
  else
    match lookupRaw raw "title" with
    | none => .error (.validation "title: field required")
    | some (.vStr t) =>
      match parseSetting raw "description" coerceStr, parseSetting raw "status" coerceStatus,
          parseSetting raw "priority" coercePriority, parseSetting raw "due_date" coerceDate,
          parseSetting raw "assigned_to" coerceStr with
      | .ok de, .ok st, .ok pr, .ok du, .ok asg =>
        .ok { title := t, description := de.toOption, status := st.toOption,
              priority := pr.toOption, due_date := du.toOption, assigned_to := asg.toOption }
      | .error e, _, _, _, _ => .error e
      | _, .error e, _, _, _ => .error e
      | _, _, .error e, _, _ => .error e
      | _, _, _, .error e, _ => .error e
      | _, _, _, _, .error e => .error e
    | some _ => .error (.validation "title: none is not an allowed value")

/-- The create endpoint from the raw JSON body onward. -/
def createHandlerRaw (s : Store) (raw : List (String × RawValue)) (now : Int) :
    Store × Except ApiError Task :=
  match parseTaskCreate raw with
  | .error e => (s, .error e)
  | .ok p => createHandler s p now

/-- The update endpoint from the raw JSON body onward. -/
def updateHandlerRaw (s : Store) (id : Nat) (raw : List (String × RawValue)) (now : Int) :
    Store × Except ApiError Task :=
  match parseTaskUpdate raw with
  | .error e => (s, .error e)
  | .ok p => updateHandler s id p now

/-- Stores reachable from startup through the create, update and delete
endpoints (list and get do not write). -/
inductive Reachable : Store → Prop where
  | init : Reachable emptyStore
  | create (s : Store) (p : TaskCreate) (now : Int) :
      Reachable s → Reachable (createHandler s p now).1
  | update (s : Store) (id : Nat) (p : TaskUpdate) (now : Int) :
      Reachable s → Reachable (updateHandler s id p now).1
  | del (s : Store) (id : Nat) :
      Reachable s → Reachable (delete_task s id).1

/-- The persisted-title invariant: every committed row's title is
non-empty after stripping. -/
def StoreInv (s : Store) : Prop :=
  ∀ t ∈ s.tasks, pyStrip t.title ≠ ""

/-- Whether the title field of an update payload would pass its validator. -/
def titleOk : Setting String → Bool
  | .set (some x) => !(pyStrip x == "")
  | _ => true

/-- A concrete committed row used to instantiate the theorems. -/
def sampleTask : Task :=
  { id := 1, title := "a", description := none, status := .pending,
    priority := .medium, due_date := none, assigned_to := none,
    created_at := naiveUtcNow 0, updated_at := none }

/-- A concrete one-row store used to instantiate the theorems. -/
def sampleStore : Store := { tasks := [sampleTask], nextId := 2 }

/-- If dropping leading whitespace leaves a cons, its head is not whitespace. -/
theorem head_not_ws_of_dropWhile_eq_cons (l : List Char) (a : Char) (t : List Char)
    (h : l.dropWhile Char.isWhitespace = a :: t) : Char.isWhitespace a = false := by
  induction l with
  | nil => simp at h
  | cons x xs ih =>
    by_cases hx : Char.isWhitespace x
    · rw [List.dropWhile_cons_of_pos hx] at h
      exact ih h
    · rw [List.dropWhile_cons_of_neg hx] at h
      cases h
      simpa using hx

/-- A stripped character list has no leading whitespace left to drop. -/
theorem dropWhile_stripChars (l : List Char) :
    (stripChars l).dropWhile Char.isWhitespace = stripChars l := by
  unfold stripChars
  cases hr : (l.dropWhile Char.isWhitespace).rdropWhile Char.isWhitespace with
  | nil => simp
  | cons a t =>
    have hpre := List.rdropWhile_prefix Char.isWhitespace (l.dropWhile Char.isWhitespace)
    rw [hr] at hpre
    obtain ⟨u, hu⟩ := hpre
    have hdw : l.dropWhile Char.isWhitespace = a :: (t ++ u) := by
      rw [← hu, List.cons_append]
    have ha := head_not_ws_of_dropWhile_eq_cons l a (t ++ u) hdw
    rw [List.dropWhile_cons_of_neg (by simp [ha])]

/-- Python strip is idempotent on character lists. -/
theorem stripChars_idem (l : List Char) : stripChars (stripChars l) = stripChars l := by
  have h1 := dropWhile_stripChars l
  show (stripChars (stripChars l)) = stripChars l
  rw [show stripChars (stripChars l)
        = ((stripChars l).dropWhile Char.isWhitespace).rdropWhile Char.isWhitespace from rfl,
    h1]
  rw [show stripChars l = (l.dropWhile Char.isWhitespace).rdropWhile Char.isWhitespace from rfl]
  exact List.rdropWhile_idempotent Char.isWhitespace (l.dropWhile Char.isWhitespace)

/-- Python strip is idempotent on strings. -/
theorem pyStrip_idem (s : String) : pyStrip (pyStrip s) = pyStrip s := by
  unfold pyStrip
  rw [show (String.mk (stripChars s.toList)).toList = stripChars s.toList from rfl,
    stripChars_idem]

/-- Replacing the matching rows of a primary-key lookup makes the lookup
return the replacement. -/
theorem find?_map_replace (l : List Task) (id : Nat) (t2 : Task) (h2 : t2.id = id)
    (h : (l.find? (fun u => u.id == id)).isSome = true) :
    (l.map (fun u => if u.id == id then t2 else u)).find? (fun u => u.id == id) = some t2 := by
  induction l with
  | nil => simp at h
  | cons a l ih =>
    by_cases ha : a.id == id
    · simp only [List.map_cons, if_pos ha]
      exact List.find?_cons_of_pos _ (by simp [h2])
    · simp only [List.map_cons, if_neg ha]
      rw [List.find?_cons_of_neg (p := fun (u : Task) => u.id == id) _ ha]
      rw [List.find?_cons_of_neg (p := fun (u : Task) => u.id == id) _ ha] at h
      exact ih h

/-- After deleting a primary key, looking it up finds nothing. -/
theorem find?_filter_ne (l : List Task) (id : Nat) :
    (l.filter (fun t => !(t.id == id))).find? (fun t => t.id == id) = none := by
  rw [List.find?_eq_none]
  intro x hx
  have hmem := List.mem_filter.mp hx
  simpa using hmem.2

/-- The title validator on a present value, as an if-then-else. -/
theorem validate_title_some (x : String) :
    validate_title (some x) =
      if pyStrip x = "" then .error "Title cannot be empty or whitespace only."
      else .ok (some (pyStrip x)) := by
  simp [validate_title]

/-- The required-title validator, as an if-then-else. -/
theorem validate_title_required_eq (x : String) :
    validate_title_required x =
      if pyStrip x = "" then .error "Title cannot be empty or whitespace only."
      else .ok (pyStrip x) := by
  simp [validate_title_required]

/-- datetime.now(timezone.utc) denotes the instant now. -/
theorem instant_utcNow (now : Int) : (utcNow now).instant = now := by
  simp [utcNow, DateTime.instant]

/-- The due-date validator on a present value, as an if-then-else. -/
theorem validate_due_date_some (d : DateTime) (now : Int) :
    validate_due_date (some d) now =
      if (normalizeUtc d).instant ≤ now then .error "Due date must be in the future."
      else .ok (some (normalizeUtc d)) := by
  simp [validate_due_date, instant_utcNow]

/-- TaskCreate validation in closed form. -/
theorem TaskCreate.validate_eq (p : TaskCreate) (now : Int) :
    p.validate now =
      if pyStrip p.title = "" then .error "Title cannot be empty or whitespace only."
      else
        match validate_due_date p.due_date now with
        | .error e => .error e
        | .ok d => .ok { p with title := pyStrip p.title, due_date := d } := by
  unfold TaskCreate.validate
  rw [validate_title_required_eq]
  by_cases h : pyStrip p.title = "" <;> simp [h]

/-- Revalidating a field does not change whether it was supplied. -/
theorem Setting.isSet_revalidate {α : Type} (s : Setting α) (v : Option α) :
    (s.revalidate v).isSet = s.isSet := by
  cases s <;> rfl

/-- A field that was not supplied is unset. -/
theorem Setting.eq_unset_of_not_isSet {α : Type} (s : Setting α) (h : s.isSet = false) :
    s = .unset := by
  cases s <;> simp [Setting.isSet] at h ⊢

/-- A committed row's title column is the row's (non-null) title. -/
theorem TaskRecord.commit_some_title (r : TaskRecord) (t : Task) (h : r.commit = some t) :
    r.title = some t.title := by
  unfold TaskRecord.commit at h
  split at h
  · rename_i ttl st pr heqt heqs heqp
    injection h with h
    subst h
    exact heqt
  · cases h

/-- Validation of an update payload leaves the title field unset, or
explicitly null, or set to a stripped non-empty string. -/
theorem TaskUpdate.validate_ok_title (p q : TaskUpdate) (now : Int)
    (h : p.validate now = .ok q) :
    q.title = .unset ∨ q.title = .set none ∨
      ∃ x, q.title = .set (some (pyStrip x)) ∧ pyStrip x ≠ "" := by
  unfold TaskUpdate.validate at h
  split at h
  · cases h
  · rename_i t ht
    split at h
    · cases h
    · rename_i dd hd
      injection h with h
      subst h
      cases hp : p.title with
      | unset => exact Or.inl (by simp [Setting.revalidate])
      | set v =>
        cases v with
        | none =>
          rw [hp] at ht
          simp [Setting.toOption, validate_title] at ht
          subst ht
          exact Or.inr (Or.inl (by simp [Setting.revalidate]))
        | some x =>
          rw [hp] at ht
          rw [show (Setting.set (some x)).toOption = some x from rfl, validate_title_some] at ht
          by_cases hx : pyStrip x = ""
          · rw [if_pos hx] at ht; cases ht
          · rw [if_neg hx] at ht
            injection ht with ht
            subst ht
            exact Or.inr (Or.inr ⟨x, by simp [Setting.revalidate], hx⟩)

/-- Validation of an update payload only rewrites the title and due_date
fields and preserves which fields were supplied. -/
theorem TaskUpdate.validate_ok_shape (p q : TaskUpdate) (now : Int)
    (h : p.validate now = .ok q) :
    q.description = p.description ∧ q.status = p.status ∧ q.priority = p.priority ∧
      q.assigned_to = p.assigned_to ∧ q.title.isSet = p.title.isSet ∧
      q.due_date.isSet = p.due_date.isSet := by
  unfold TaskUpdate.validate at h
  split at h
  · cases h
  · split at h
    · cases h
    · injection h with h
      subst h
      refine ⟨rfl, rfl, rfl, rfl, ?_, ?_⟩ <;> simp [Setting.isSet_revalidate]

/-- Inversion of a successful create: the stored and returned entity has
the stripped title, the declared defaults, the validated due date, and
created_at = utcnow; it is persisted in the resulting store. -/
theorem createHandler_ok_inv (s : Store) (p : TaskCreate) (now : Int) (s2 : Store) (t : Task)
    (h : createHandler s p now = (s2, .ok t)) :
    t.title = pyStrip p.title ∧
    t.status = p.status.getD .pending ∧
    t.priority = p.priority.getD .medium ∧
    t.description = p.description ∧
    t.assigned_to = p.assigned_to ∧
    t.created_at = naiveUtcNow now ∧
    (∃ dd, validate_due_date p.due_date now = .ok dd ∧ t.due_date = dd) ∧
    t ∈ s2.tasks := by
  unfold createHandler at h
  split at h
  · cases h
  · rename_i q hq
    rw [TaskCreate.validate_eq] at hq
    by_cases ht : pyStrip p.title = ""
    · rw [if_pos ht] at hq; cases hq
    · rw [if_neg ht] at hq
      cases hd : validate_due_date p.due_date now with
      | error e => rw [hd] at hq; cases hq
      | ok dd =>
        rw [hd] at hq
        injection hq with hq
        subst hq
        unfold create_task at h
        injection h with h1 h2
        injection h2 with h2
        subst h2
        subst h1
        refine ⟨by simp [pyStrip_idem], rfl, rfl, rfl, rfl, rfl, ⟨dd, rfl, rfl⟩, by simp⟩

/-- Create preserves the persisted-title invariant. -/
theorem storeInv_create (s : Store) (p : TaskCreate) (now : Int) (h : StoreInv s) :
    StoreInv (createHandler s p now).1 := by
  cases hv : createHandler s p now with
  | mk s2 r =>
    cases hr : r with
    | error e =>
      rw [hr] at hv
      unfold createHandler at hv
      split at hv
      · injection hv with h1 h2; subst h1; exact h
      · unfold create_task at hv; injection hv with h1 h2; cases h2
    | ok t =>
      rw [hr] at hv
      unfold createHandler at hv
      split at hv
      · injection hv with h1 h2; cases h2
      · rename_i q hq
        unfold create_task at hv
        injection hv with h1 h2
        subst h1
        intro u hu
        simp at hu
        rcases hu with hu | hu
        · exact h u hu
        · -- u is the new row whose title is pyStrip q.title
          -- from validation, q.title = pyStrip p.title which is nonempty
          rw [TaskCreate.validate_eq] at hq
          by_cases ht : pyStrip p.title = ""
          · rw [if_pos ht] at hq; cases hq
          · rw [if_neg ht] at hq
            cases hd : validate_due_date p.due_date now with
            | error e => rw [hd] at hq; cases hq
            | ok dd =>
              rw [hd] at hq
              injection hq with hq
              subst hq
              subst hu
              simp [pyStrip_idem]
              exact ht

/-- Update preserves the persisted-title invariant: a supplied title was
validated non-empty, a supplied null title makes the commit fail, and an
absent title keeps the old (invariant-satisfying) one. -/
theorem storeInv_update (s : Store) (id : Nat) (p : TaskUpdate) (now : Int) (h : StoreInv s) :
    StoreInv (updateHandler s id p now).1 := by
  unfold updateHandler
  cases hv : p.validate now with
  | error e => exact h
  | ok q =>
    have hqt := TaskUpdate.validate_ok_title p q now hv
    unfold update_task
    cases hf : findTask s id with
    | none => exact h
    | some t0 =>
      have ht0 : pyStrip t0.title ≠ "" := h t0 (List.mem_of_find?_eq_some hf)
      by_cases hd : q.hasData
      · simp only [hd, if_true]
        cases hc : (mergeUpdate t0 q now).commit with
        | none => exact h
        | some t2 =>
          have htitle := TaskRecord.commit_some_title _ _ hc
          simp only [mergeUpdate] at htitle
          intro u hu
          simp only [List.mem_map] at hu
          obtain ⟨w, hw, hwu⟩ := hu
          by_cases hwi : w.id == id
          · rw [if_pos hwi] at hwu
            subst hwu
            -- u = t2; its title came from applySetting on the validated payload
            rcases hqt with hq1 | hq1 | ⟨x, hq1, hq2⟩
            · rw [hq1] at htitle
              simp only [applySetting] at htitle
              injection htitle with htitle
              rw [← htitle]
              exact ht0
            · rw [hq1] at htitle
              simp only [applySetting] at htitle
              cases htitle
            · rw [hq1] at htitle
              simp only [applySetting] at htitle
              injection htitle with htitle
              rw [← htitle, pyStrip_idem]
              exact hq2
          · rw [if_neg hwi] at hwu
            subst hwu
            exact h w hw
      · simp only [hd, if_false]
        exact h

/-- Delete preserves the persisted-title invariant. -/
theorem storeInv_delete (s : Store) (id : Nat) (h : StoreInv s) :
    StoreInv (delete_task s id).1 := by
  unfold delete_task
  cases hf : findTask s id with
  | none => exact h
  | some t0 =>
    intro u hu
    exact h u (List.mem_filter.mp hu).1

/-- C1 counterexample: the claim says every List request with limit < 1
fails with a bad-request outcome, but a request with skip = 0 and
limit = 0 (which is < 1) is accepted: the source constrains limit only by
le=100 and declares no lower bound. -/
theorem C1_counterexample :
    (0 : Int) < 1 ∧ list_tasks emptyStore 0 0 none none = .ok [] := by
  exact ⟨by decide, rfl⟩

/-- C1 (amended): a List request fails with a bad-request outcome exactly
when skip < 0 or limit > 100, and is accepted exactly when skip ≥ 0 and
limit ≤ 100; no lower bound on limit is enforced. -/
theorem C1_list_bounds (s : Store) (skip limit : Int) (stF : Option TaskStatus)
    (prF : Option TaskPriority) :
    ((∃ m, list_tasks s skip limit stF prF = .error (.validation m)) ↔
      (skip < 0 ∨ 100 < limit)) ∧
    ((∃ l, list_tasks s skip limit stF prF = .ok l) ↔ (0 ≤ skip ∧ limit ≤ 100)) := by
  unfold list_tasks
  by_cases h1 : skip < 0
  all_goals by_cases h2 : 100 < limit
  all_goals simp [h1, h2]
  all_goals omega

/-- C1 witness: the amended characterization at a concrete rejected
request. -/
theorem C1_witness :
    ((∃ m, list_tasks emptyStore (-1) 10 none none = .error (.validation m)) ↔
      ((-1 : Int) < 0 ∨ (100 : Int) < 10)) ∧
    ((∃ l, list_tasks emptyStore (-1) 10 none none = .ok l) ↔
      ((0 : Int) ≤ -1 ∧ (10 : Int) ≤ 100)) :=
  C1_list_bounds emptyStore (-1) 10 none none

/-- C2: in every store reachable through the create, update and delete
endpoints, every persisted task's title is non-empty after stripping
whitespace (in particular never null, empty or whitespace-only): a create
stores a validated stripped title, an update with a non-null title stores
its validated stripped form, and an update with an explicitly null title
fails the table's NOT NULL constraint and persists nothing. -/
theorem C2_title_invariant (s : Store) (h : Reachable s) : StoreInv s := by
  induction h with
  | init => intro t ht; simp [emptyStore] at ht
  | create s p now _ ih => exact storeInv_create s p now ih
  | update s id p now _ ih => exact storeInv_update s id p now ih
  | del s id _ ih => exact storeInv_delete s id ih

/-- C2 witness: the invariant applied to the concrete row produced by one
create request. -/
theorem C2_witness :
    pyStrip (Task.mk 1 "hi" none .pending .medium none none (naiveUtcNow 0) none).title
      ≠ "" := by
  have h := C2_title_invariant (createHandler emptyStore { title := " hi " } 0).1
    (Reachable.create emptyStore { title := " hi " } 0 Reachable.init)
  exact h _ (by decide)

/-- C3: a create or update payload whose supplied title strips to the
empty string fails validation with no store write, and a successful
create stores (and returns) the stripped title. -/
theorem C3_title_trim (s : Store) (p pg : TaskCreate) (q : TaskUpdate) (id : Nat) (x : String)
    (now : Int) (sg : Store) (tg : Task)
    (hbad : pyStrip p.title = "")
    (hgood : createHandler s pg now = (sg, .ok tg))
    (hqt : q.title = .set (some x)) (hx : pyStrip x = "") :
    (∃ m, createHandler s p now = (s, .error (.validation m))) ∧
    tg.title = pyStrip pg.title ∧ tg ∈ sg.tasks ∧
    (∃ m, updateHandler s id q now = (s, .error (.validation m))) := by
  have inv := createHandler_ok_inv s pg now sg tg hgood
  refine ⟨⟨"Title cannot be empty or whitespace only.", ?_⟩, inv.1, inv.2.2.2.2.2.2.2,
    ⟨"Title cannot be empty or whitespace only.", ?_⟩⟩
  · unfold createHandler
    rw [TaskCreate.validate_eq, if_pos hbad]
  · unfold updateHandler TaskUpdate.validate
    rw [hqt, show (Setting.set (some x)).toOption = some x from rfl,
      validate_title_some, if_pos hx]

/-- C3 witness: a whitespace-only create payload, a successful create of
a padded title, and a whitespace-only update title, all concrete. -/
theorem C3_witness :
    (∃ m, createHandler emptyStore { title := " " } 0 =
      (emptyStore, .error (.validation m))) ∧
    (Task.mk 1 "ok" none .pending .medium none none (naiveUtcNow 0) none).title
      = pyStrip " ok " ∧
    Task.mk 1 "ok" none .pending .medium none none (naiveUtcNow 0) none
      ∈ (Store.mk [Task.mk 1 "ok" none .pending .medium none none (naiveUtcNow 0) none] 2).tasks ∧
    (∃ m, updateHandler emptyStore 1 { title := .set (some " ") } 0 =
      (emptyStore, .error (.validation m))) :=
  C3_title_trim emptyStore { title := " " } { title := " ok " }
    { title := .set (some " ") } 1 " " 0
    (Store.mk [Task.mk 1 "ok" none .pending .medium none none (naiveUtcNow 0) none] 2)
    (Task.mk 1 "ok" none .pending .medium none none (naiveUtcNow 0) none)
    (by decide) rfl rfl (by decide)

/-- C4: for every successful create, independently per field, the
returned entity's status is the payload's status when supplied and
pending when omitted, and its priority is the payload's priority when
supplied and medium when omitted: Option.getD states both cases of each
field at once, so payloads supplying only one of the two fields are
covered as well. -/
theorem C4_create_defaults (s : Store) (p : TaskCreate) (now : Int) (sb : Store) (t : Task)
    (h : createHandler s p now = (sb, .ok t)) :
    t.status = p.status.getD TaskStatus.pending ∧
    t.priority = p.priority.getD TaskPriority.medium := by
  have i := createHandler_ok_inv s p now sb t h
  exact ⟨i.2.1, i.2.2.1⟩

/-- C4 witness: a mixed concrete payload omitting status while supplying
priority urgent, whose created entity carries the default pending and the
supplied urgent. -/
theorem C4_witness :
    (Task.mk 1 "b" none .pending .urgent none none (naiveUtcNow 0) none).status
      = (none : Option TaskStatus).getD TaskStatus.pending ∧
    (Task.mk 1 "b" none .pending .urgent none none (naiveUtcNow 0) none).priority
      = (some TaskPriority.urgent).getD TaskPriority.medium :=
  C4_create_defaults emptyStore { title := "b", priority := some .urgent } 0
    (Store.mk [Task.mk 1 "b" none .pending .urgent none none (naiveUtcNow 0) none] 2)
    (Task.mk 1 "b" none .pending .urgent none none (naiveUtcNow 0) none)
    rfl

/-- Full inversion of a committed row: every column equals the row's. -/
theorem TaskRecord.commit_some_inv (r : TaskRecord) (t : Task) (h : r.commit = some t) :
    r.title = some t.title ∧ r.status = some t.status ∧ r.priority = some t.priority ∧
    r.id = t.id ∧ r.description = t.description ∧ r.due_date = t.due_date ∧
    r.assigned_to = t.assigned_to ∧ r.created_at = t.created_at ∧
    r.updated_at = t.updated_at := by
  unfold TaskRecord.commit at h
  split at h
  · rename_i ttl st pr heqt heqs heqp
    injection h with h
    subst h
    exact ⟨heqt, heqs, heqp, rfl, rfl, rfl, rfl, rfl, rfl⟩
  · cases h

/-- Inversion of a successful repository update: the target row existed,
the merged row committed to the returned entity, and the store holds the
committed row in place of the old one. -/
theorem update_task_ok_inv (s : Store) (id : Nat) (p : TaskUpdate) (now : Int) (s2 : Store)
    (t : Task) (h : update_task s id p now = (s2, .ok t)) :
    ∃ t0, findTask s id = some t0 ∧
      (mergeUpdate t0 p now).commit = some t ∧
      s2 = { s with tasks := s.tasks.map (fun u => if u.id == id then t else u) } := by
  unfold update_task at h
  cases hf : findTask s id with
  | none =>
    rw [hf] at h
    injection h with h1 h2
    cases h2
  | some t0 =>
    rw [hf] at h
    dsimp only at h
    by_cases hd : p.hasData = true
    · rw [if_pos hd] at h
      cases hc : (mergeUpdate t0 p now).commit with
      | none =>
        rw [hc] at h
        injection h with h1 h2
        cases h2
      | some t2 =>
        rw [hc] at h
        injection h with h1 h2
        injection h2 with h2
        subst h2
        exact ⟨t0, rfl, hc, h1.symm⟩
    · rw [if_neg hd] at h
      injection h with h1 h2
      cases h2

/-- C5: a present due_date is normalized by attaching UTC when naive; a
create or update whose normalized due_date is not strictly after now
fails validation with no store write; a future one passes validation
carrying the normalized value, which is what a successful operation
stores. -/
theorem C5_due_date
    (s : Store) (id : Nat) (d dcp dcf dup duf : DateTime) (now : Int)
    (p pf : TaskCreate) (q qf : TaskUpdate) (s2 : Store) (tu : Task)
    (hdn : d.tz = none)
    (hp : p.due_date = some dcp) (hpt : pyStrip p.title ≠ "")
    (hppast : (normalizeUtc dcp).instant ≤ now)
    (hpf : pf.due_date = some dcf) (hpft : pyStrip pf.title ≠ "")
    (hpffut : now < (normalizeUtc dcf).instant)
    (hq : q.due_date = .set (some dup)) (hqt : titleOk q.title = true)
    (hqpast : (normalizeUtc dup).instant ≤ now)
    (hqf : qf.due_date = .set (some duf)) (hqftu : qf.title = .unset)
    (hqffut : now < (normalizeUtc duf).instant)
    (hok : updateHandler s id qf now = (s2, .ok tu)) :
    normalizeUtc d = { d with tz := some 0 } ∧
    (∃ m, createHandler s p now = (s, .error (.validation m))) ∧
    (∃ sb t, createHandler s pf now = (sb, .ok t) ∧ t.due_date = some (normalizeUtc dcf)) ∧
    (∃ m, updateHandler s id q now = (s, .error (.validation m))) ∧
    qf.validate now = .ok { qf with due_date := .set (some (normalizeUtc duf)) } ∧
    tu.due_date = some (normalizeUtc duf) := by
  have hv2 : qf.validate now = .ok { qf with due_date := .set (some (normalizeUtc duf)) } := by
    unfold TaskUpdate.validate
    rw [hqftu, hqf]
    simp only [Setting.toOption, validate_title, Setting.revalidate, validate_due_date_some]
    rw [if_neg (not_le.mpr hqffut)]
  refine ⟨?_, ?_, ?_, ?_, hv2, ?_⟩
  · simp [normalizeUtc, hdn]
  · refine ⟨"Due date must be in the future.", ?_⟩
    unfold createHandler
    rw [TaskCreate.validate_eq, if_neg hpt, hp, validate_due_date_some, if_pos hppast]
  · have hv3 : pf.validate now =
        .ok { pf with title := pyStrip pf.title, due_date := some (normalizeUtc dcf) } := by
      rw [TaskCreate.validate_eq, if_neg hpft, hpf, validate_due_date_some,
        if_neg (not_le.mpr hpffut)]
    cases hcc : createHandler s pf now with
    | mk sb r =>
      cases r with
      | error e =>
        exfalso
        unfold createHandler at hcc
        rw [hv3] at hcc
        unfold create_task at hcc
        injection hcc with h1 h2
        cases h2
      | ok t =>
        refine ⟨sb, t, rfl, ?_⟩
        obtain ⟨dd, hdd, hdt⟩ := (createHandler_ok_inv s pf now sb t hcc).2.2.2.2.2.2.1
        rw [hpf, validate_due_date_some, if_neg (not_le.mpr hpffut)] at hdd
        injection hdd with hdd
        rw [← hdd] at hdt
        exact hdt
  · have ht : ∃ tv, validate_title q.title.toOption = .ok tv := by
      cases hT : q.title with
      | unset => exact ⟨none, rfl⟩
      | set v =>
        cases v with
        | none => exact ⟨none, rfl⟩
        | some x =>
          have hx : pyStrip x ≠ "" := by
            rw [hT] at hqt
            simpa [titleOk] using hqt
          exact ⟨some (pyStrip x),
            by rw [show (Setting.set (some x)).toOption = some x from rfl,
                 validate_title_some, if_neg hx]⟩
    obtain ⟨tv, htv⟩ := ht
    refine ⟨"Due date must be in the future.", ?_⟩
    unfold updateHandler TaskUpdate.validate
    rw [htv, hq]
    simp only [Setting.toOption, validate_due_date_some]
    rw [if_pos hqpast]
  · unfold updateHandler at hok
    rw [hv2] at hok
    obtain ⟨t0, hf0, hc0, hs0⟩ := update_task_ok_inv _ _ _ _ _ _ hok
    have hinv := TaskRecord.commit_some_inv _ _ hc0
    have h6 := hinv.2.2.2.2.2.1
    rw [← h6]
    simp [mergeUpdate, applySetting]

/-- C5 witness: concrete naive datetimes, a past-due create and update,
a future-due create, and a concrete successful future-due update on the
sample store. -/
theorem C5_witness :
    normalizeUtc (DateTime.mk 7 none) = { DateTime.mk 7 none with tz := some 0 } ∧
    (∃ m, createHandler sampleStore { title := "a", due_date := some (DateTime.mk 3 none) } 5 =
      (sampleStore, .error (.validation m))) ∧
    (∃ sb t, createHandler sampleStore { title := "a", due_date := some (DateTime.mk 100 none) } 5 =
      (sb, .ok t) ∧ t.due_date = some (normalizeUtc (DateTime.mk 100 none))) ∧
    (∃ m, updateHandler sampleStore 1 { due_date := .set (some (DateTime.mk 3 none)) } 5 =
      (sampleStore, .error (.validation m))) ∧
    TaskUpdate.validate { due_date := .set (some (DateTime.mk 100 none)) } 5 =
      .ok { TaskUpdate.mk .unset .unset .unset .unset (.set (some (DateTime.mk 100 none))) .unset with
        due_date := .set (some (normalizeUtc (DateTime.mk 100 none))) } ∧
    (Task.mk 1 "a" none .pending .medium (some (DateTime.mk 100 (some 0))) none
      (naiveUtcNow 0) (some (naiveUtcNow 5))).due_date
      = some (normalizeUtc (DateTime.mk 100 none)) :=
  C5_due_date sampleStore 1 (DateTime.mk 7 none) (DateTime.mk 3 none) (DateTime.mk 100 none)
    (DateTime.mk 3 none) (DateTime.mk 100 none) 5
    { title := "a", due_date := some (DateTime.mk 3 none) }
    { title := "a", due_date := some (DateTime.mk 100 none) }
    { due_date := .set (some (DateTime.mk 3 none)) }
    { due_date := .set (some (DateTime.mk 100 none)) }
    (Store.mk [Task.mk 1 "a" none .pending .medium (some (DateTime.mk 100 (some 0))) none
      (naiveUtcNow 0) (some (naiveUtcNow 5))] 2)
    (Task.mk 1 "a" none .pending .medium (some (DateTime.mk 100 (some 0))) none
      (naiveUtcNow 0) (some (naiveUtcNow 5)))
    rfl rfl (by decide) (by decide) rfl (by decide) (by decide)
    rfl (by decide) (by decide) rfl rfl (by decide) rfl

/-- C6: any create or update body containing an unrecognized field name is
rejected by the strict schema with a validation error, and the store is
untouched. -/
theorem C6_unknown_field (s : Store) (id : Nat) (raw : List (String × RawValue)) (now : Int)
    (h : raw.any (fun f => !(recognizedFields.contains f.1)) = true) :
    createHandlerRaw s raw now = (s, .error (.validation "extra fields not permitted")) ∧
    updateHandlerRaw s id raw now = (s, .error (.validation "extra fields not permitted")) := by
  constructor
  · unfold createHandlerRaw parseTaskCreate
    rw [if_pos h]
  · unfold updateHandlerRaw parseTaskUpdate
    rw [if_pos h]

/-- C6 witness: a concrete body with the unrecognized field name bogus. -/
theorem C6_witness :
    createHandlerRaw emptyStore [("bogus", RawValue.vStr "x")] 0 =
      (emptyStore, .error (.validation "extra fields not permitted")) ∧
    updateHandlerRaw emptyStore 1 [("bogus", RawValue.vStr "x")] 0 =
      (emptyStore, .error (.validation "extra fields not permitted")) :=
  C6_unknown_field emptyStore 1 [("bogus", RawValue.vStr "x")] 0 (by decide)

/-- C7: an update of an existing id whose payload supplies no recognized
field fails with the validation message of tasks.py line 85, leaving the
store (and hence the stored entity and its updated_at) unchanged. -/
theorem C7_empty_update (s : Store) (id : Nat) (p : TaskUpdate) (now : Int) (t0 : Task)
    (hfound : findTask s id = some t0) (hempty : p.hasData = false) :
    updateHandler s id p now = (s, .error (.validation "No data provided for update.")) := by
  obtain ⟨pt, pd, ps, pp, pdd, pa⟩ := p
  unfold TaskUpdate.hasData at hempty
  simp only [Bool.or_eq_false_iff] at hempty
  obtain ⟨⟨⟨⟨⟨h1, h2⟩, h3⟩, h4⟩, h5⟩, h6⟩ := hempty
  rw [Setting.eq_unset_of_not_isSet _ h1, Setting.eq_unset_of_not_isSet _ h2,
    Setting.eq_unset_of_not_isSet _ h3, Setting.eq_unset_of_not_isSet _ h4,
    Setting.eq_unset_of_not_isSet _ h5, Setting.eq_unset_of_not_isSet _ h6]
  unfold updateHandler
  rw [show TaskUpdate.validate ⟨.unset, .unset, .unset, .unset, .unset, .unset⟩ now =
    .ok ⟨.unset, .unset, .unset, .unset, .unset, .unset⟩ from rfl]
  unfold update_task
  rw [hfound]
  rfl

/-- C7 witness: the empty update of the sample store's only row. -/
theorem C7_witness :
    updateHandler sampleStore 1 {} 0 =
      (sampleStore, .error (.validation "No data provided for update.")) :=
  C7_empty_update sampleStore 1 {} 0 sampleTask (by decide) rfl

/-- C8: for an id absent from the store, Get, (repository-level) Update
and Delete all fail with the not-found message and leave the store
unchanged; deleting an existing id then getting it is also not-found. -/
theorem C8_not_found (s s2 : Store) (id id2 : Nat) (p : TaskUpdate) (now : Int) (t2 : Task)
    (habs : findTask s id = none) (hfound : findTask s2 id2 = some t2) :
    get_task s id = .error (.notFound (notFoundMsg id)) ∧
    update_task s id p now = (s, .error (.notFound (notFoundMsg id))) ∧
    delete_task s id = (s, .error (.notFound (notFoundMsg id))) ∧
    get_task (delete_task s2 id2).1 id2 = .error (.notFound (notFoundMsg id2)) := by
  refine ⟨?_, ?_, ?_, ?_⟩
  · unfold get_task
    rw [habs]
  · unfold update_task
    rw [habs]
  · unfold delete_task
    rw [habs]
  · unfold delete_task
    rw [hfound]
    dsimp only
    unfold get_task findTask
    dsimp only
    rw [find?_filter_ne]

/-- C8 witness: id 1 on the empty store, and delete-then-get of the
sample store's row. -/
theorem C8_witness :
    get_task emptyStore 1 = .error (.notFound (notFoundMsg 1)) ∧
    update_task emptyStore 1 {} 0 = (emptyStore, .error (.notFound (notFoundMsg 1))) ∧
    delete_task emptyStore 1 = (emptyStore, .error (.notFound (notFoundMsg 1))) ∧
    get_task (delete_task sampleStore 1).1 1 = .error (.notFound (notFoundMsg 1)) :=
  C8_not_found emptyStore sampleStore 1 1 {} 0 sampleTask rfl (by decide)

/-- C9: a successful update keeps id and created_at, sets updated_at to
the update time, gives every supplied field the payload's value and every
absent field the prior value (the setattr loop as applySetting per
column), and a subsequent get returns exactly the updated entity. -/
theorem C9_partial_update (s : Store) (id : Nat) (p : TaskUpdate) (now : Int) (old : Task)
    (s2 : Store) (t : Task)
    (hold : findTask s id = some old)
    (h : update_task s id p now = (s2, .ok t)) :
    t.id = old.id ∧ t.created_at = old.created_at ∧
    t.updated_at = some (naiveUtcNow now) ∧
    some t.title = applySetting p.title (some old.title) ∧
    t.description = applySetting p.description old.description ∧
    some t.status = applySetting p.status (some old.status) ∧
    some t.priority = applySetting p.priority (some old.priority) ∧
    t.due_date = applySetting p.due_date old.due_date ∧
    t.assigned_to = applySetting p.assigned_to old.assigned_to ∧
    get_task s2 id = .ok t := by
  obtain ⟨t0, hf0, hc0, hs0⟩ := update_task_ok_inv s id p now s2 t h
  rw [hold] at hf0
  injection hf0 with hf0
  subst hf0
  have hinv := TaskRecord.commit_some_inv _ _ hc0
  simp only [mergeUpdate] at hinv
  obtain ⟨hti, hst, hpr, hid, hde, hdu, has, hcr, hup⟩ := hinv
  unfold findTask at hold
  have hbeq := List.find?_some hold
  have holdid : old.id = id := by simpa using hbeq
  have htid : t.id = id := by rw [← hid, holdid]
  have hsome : (s.tasks.find? (fun u => u.id == id)).isSome = true := by
    rw [hold]
    rfl
  refine ⟨hid.symm, hcr.symm, hup.symm, hti.symm, hde.symm, hst.symm, hpr.symm,
    hdu.symm, has.symm, ?_⟩
  subst hs0
  unfold get_task findTask
  dsimp only
  rw [find?_map_replace s.tasks id t htid hsome]

/-- C9 witness: updating only the description of the sample store's row. -/
theorem C9_witness :
    (Task.mk 1 "a" (some "X") .pending .medium none none (naiveUtcNow 0)
      (some (naiveUtcNow 5))).id = sampleTask.id ∧
    (Task.mk 1 "a" (some "X") .pending .medium none none (naiveUtcNow 0)
      (some (naiveUtcNow 5))).created_at = sampleTask.created_at ∧
    (Task.mk 1 "a" (some "X") .pending .medium none none (naiveUtcNow 0)
      (some (naiveUtcNow 5))).updated_at = some (naiveUtcNow 5) ∧
    some (Task.mk 1 "a" (some "X") .pending .medium none none (naiveUtcNow 0)
      (some (naiveUtcNow 5))).title
      = applySetting Setting.unset (some sampleTask.title) ∧
    (Task.mk 1 "a" (some "X") .pending .medium none none (naiveUtcNow 0)
      (some (naiveUtcNow 5))).description
      = applySetting (Setting.set (some "X")) sampleTask.description ∧
    some (Task.mk 1 "a" (some "X") .pending .medium none none (naiveUtcNow 0)
      (some (naiveUtcNow 5))).status
      = applySetting Setting.unset (some sampleTask.status) ∧
    some (Task.mk 1 "a" (some "X") .pending .medium none none (naiveUtcNow 0)
      (some (naiveUtcNow 5))).priority
      = applySetting Setting.unset (some sampleTask.priority) ∧
    (Task.mk 1 "a" (some "X") .pending .medium none none (naiveUtcNow 0)
      (some (naiveUtcNow 5))).due_date
      = applySetting Setting.unset sampleTask.due_date ∧
    (Task.mk 1 "a" (some "X") .pending .medium none none (naiveUtcNow 0)
      (some (naiveUtcNow 5))).assigned_to
      = applySetting Setting.unset sampleTask.assigned_to ∧
    get_task (Store.mk [Task.mk 1 "a" (some "X") .pending .medium none none
      (naiveUtcNow 0) (some (naiveUtcNow 5))] 2) 1
      = .ok (Task.mk 1 "a" (some "X") .pending .medium none none (naiveUtcNow 0)
        (some (naiveUtcNow 5))) :=
  C9_partial_update sampleStore 1 { description := .set (some "X") } 5 sampleTask
    (Store.mk [Task.mk 1 "a" (some "X") .pending .medium none none (naiveUtcNow 0)
      (some (naiveUtcNow 5))] 2)
    (Task.mk 1 "a" (some "X") .pending .medium none none (naiveUtcNow 0)
      (some (naiveUtcNow 5)))
    (by decide) rfl

/-- C10: for an id absent from the store, an update with an empty payload
fails with the not-found outcome, not with the empty-payload validation
error: the lookup at tasks.py line 79 precedes the emptiness check at
line 84. -/
theorem C10_not_found_first (s : Store) (id : Nat) (p : TaskUpdate) (now : Int)
    (habs : findTask s id = none) (hempty : p.hasData = false) :
    updateHandler s id p now = (s, .error (.notFound (notFoundMsg id))) := by
  obtain ⟨pt, pd, ps, pp, pdd, pa⟩ := p
  unfold TaskUpdate.hasData at hempty
  simp only [Bool.or_eq_false_iff] at hempty
  obtain ⟨⟨⟨⟨⟨h1, h2⟩, h3⟩, h4⟩, h5⟩, h6⟩ := hempty
  rw [Setting.eq_unset_of_not_isSet _ h1, Setting.eq_unset_of_not_isSet _ h2,
    Setting.eq_unset_of_not_isSet _ h3, Setting.eq_unset_of_not_isSet _ h4,
    Setting.eq_unset_of_not_isSet _ h5, Setting.eq_unset_of_not_isSet _ h6]
  unfold updateHandler
  rw [show TaskUpdate.validate ⟨.unset, .unset, .unset, .unset, .unset, .unset⟩ now =
    .ok ⟨.unset, .unset, .unset, .unset, .unset, .unset⟩ from rfl]
  unfold update_task
  rw [habs]

/-- C10 witness: the empty update of an id absent from the empty store
yields not-found. -/
theorem C10_witness :
    updateHandler emptyStore 1 {} 0 = (emptyStore, .error (.notFound (notFoundMsg 1))) :=
  C10_not_found_first emptyStore 1 {} 0 rfl rfl
